import Mathlib

/-!
Shallow embedding of the College Digital Application Management System backend
(`src/main.py`, `src/schemas.py`).

Modelling conventions:
* MongoDB document identifiers (`ObjectId`) are modelled as opaque `Nat` tokens;
  the store generates fresh ones from a counter (`nextId`).
* Each collection is a list; `insert_one` appends at the end (insertion order),
  `find_one` returns the first match, `update_one` rewrites the first match.
* Pydantic models become structures whose fields carry the schema defaults.
  Because every `Application` produced by pydantic carries all fields,
  `doc.get("status", "submitted")` / `doc.get("current_stage", "coordinator")`
  in `act_on_application` are modelled as plain field access.
* Pydantic `Literal[...]` validation matters in `act_on_application`: the
  incoming `ReviewAction` has unrestricted `str` fields, but the `StatusUpdate`
  being logged restricts `actor_role` and `action` with `Literal[...]`, so its
  construction can raise a `ValidationError` (modelled as `Except.error`).
* Python truthiness: `action.to_department or current_stage` treats the empty
  string as falsy (`pyOrStr`).
-/

namespace CDAMS

/-- Model of `Application` (src/schemas.py lines 34-52): pydantic model with the
schema defaults for `category`, `attachments`, `status`, `current_stage`
and `route_history`. -/
structure Application where
  student_id : String
  student_name : String
  student_email : String
  department_code : String
  category : String := "general"
  title : String
  description : String
  attachments : List String := []
  status : String := "submitted"
  current_stage : String := "coordinator"
  route_history : List String := []
  deriving DecidableEq, Repr

/-- The `category` literal set of `Application` (src/schemas.py lines 39-45). -/
def validCategory (c : String) : Bool :=
  c = "bonafide_certificate" || c = "leave_request" || c = "lab_access" ||
    c = "project_approval" || c = "general"

/-- The `status` literal set of `Application` (src/schemas.py line 50). -/
def validStatus (st : String) : Bool :=
  st = "submitted" || st = "under_review" || st = "approved" ||
    st = "rejected" || st = "forwarded"

/-- The `current_stage` literal set of `Application` (src/schemas.py line 51). -/
def validStage (st : String) : Bool :=
  st = "coordinator" || st = "hod" || st = "registrar" || st = "admin"

/-- The role literal set shared by `User.role` and `StatusUpdate.actor_role`
(src/schemas.py lines 29 and 56). -/
def validRole (r : String) : Bool :=
  r = "student" || r = "coordinator" || r = "hod" || r = "registrar" ||
    r = "admin" || r = "superadmin"

/-- The `action` literal set of `StatusUpdate` (src/schemas.py line 58). -/
def validSUAction (a : String) : Bool :=
  a = "submit" || a = "review" || a = "forward" || a = "approve" ||
    a = "reject" || a = "comment"

/-- Pydantic acceptance of an `Application` payload: the `Literal[...]` fields
must take one of their declared values.  (Email-format validation and HTTP
request framing are external collaborators per the design and are not
modelled.) -/
def Application.valid (a : Application) : Bool :=
  validCategory a.category && validStatus a.status && validStage a.current_stage

/-- Model of `StatusUpdate` (src/schemas.py lines 54-61).  `created_at` defaults to
`None`; timestamps are modelled as `Option Nat`. -/
structure StatusUpdate where
  application_id : Nat
  actor_role : String
  actor_name : String
  action : String
  comments : Option String := none
  to_department : Option String := none
  created_at : Option Nat := none
  deriving DecidableEq, Repr

/-- Model of `Department` (src/schemas.py lines 20-24) with its schema defaults. -/
structure Department where
  name : String
  code : String
  type : String := "academic"
  is_active : Bool := true
  deriving DecidableEq, Repr

/-- Model of `ReviewAction` (src/main.py lines 129-134): every field is an
unrestricted `str` / `Optional[str]`; no `Literal` validation happens here. -/
structure ReviewAction where
  actor_role : String
  actor_name : String
  action : String
  comments : Option String := none
  to_department : Option String := none
  deriving DecidableEq, Repr

/-- The JSON body returned by a successful `act_on_application`
(src/main.py line 172). -/
structure ActionResult where
  id : Nat
  status : String
  current_stage : String
  deriving DecidableEq, Repr

/-- The relevant slice of the MongoDB database: the `application`,
`statusupdate` and `department` collections, plus the id counter that stands
for `ObjectId` generation. -/
structure DB where
  application : List (Nat × Application) := []
  statusupdate : List StatusUpdate := []
  department : List (Nat × Department) := []
  nextId : Nat := 0
  deriving DecidableEq, Repr

/-- Python `to_department or current_stage` (src/main.py line 152): `or`
falls through on `None` and on the empty string (falsy). -/
def pyOrStr : Option String → String → String
  | some d, dflt => if d = "" then dflt else d
  | none, dflt => dflt

/-- Embeds `db["application"].find_one` keyed by id
(src/main.py line 142): first document with the given id. -/
def find_application (s : DB) (i : Nat) : Option Application :=
  (s.application.find? (fun p => p.1 == i)).map (fun p => p.2)

/-- Embeds `update_one` keyed by id: rewrite the first document
matching the id with the update `f`, leave everything else in place. -/
def update_first (l : List (Nat × Application)) (i : Nat)
    (f : Application → Application) : List (Nat × Application) :=
  match l with
  | [] => []
  | p :: rest => if p.1 = i then (p.1, f p.2) :: rest else p :: update_first rest i f

/-- Constructing `StatusUpdate(...)` in `act_on_application`
(src/main.py lines 165-169): pydantic checks the `Literal` fields
`actor_role` and `action` (src/schemas.py lines 56 and 58) and raises
`ValidationError` when either is outside its literal set; `created_at` is
left at its default `None`. -/
def mkStatusUpdateChecked (application_id : Nat)
    (actor_role actor_name action : String)
    (comments to_department : Option String) : Except String StatusUpdate :=
  if validRole actor_role && validSUAction action then
    .ok { application_id := application_id, actor_role := actor_role,
          actor_name := actor_name, action := action, comments := comments,
          to_department := to_department }
  else
    .error "ValidationError"

/-- Embeds `create_document("application", app_data)`: insert with a fresh
store-generated id, return the id. -/
def create_application_doc (s : DB) (a : Application) : Nat × DB :=
  (s.nextId,
   { s with application := s.application ++ [(s.nextId, a)],
            nextId := s.nextId + 1 })

/-- Embeds `submit_application` (src/main.py lines 99-111): persist the payload
as-is, then log a `StatusUpdate` with `actor_role="student"`,
`action="submit"`, `comments="Application submitted"` (these constants pass
the pydantic `Literal` checks, so the construction always succeeds).
Returns `{"id": inserted_id, "status": "submitted"}`. -/
def submit_application (s : DB) (app_data : Application) : (Nat × String) × DB :=
  let inserted_id := (create_application_doc s app_data).1
  let s1 := (create_application_doc s app_data).2
  let su : StatusUpdate :=
    { application_id := inserted_id, actor_role := "student",
      actor_name := app_data.student_name, action := "submit",
      comments := some "Application submitted" }
  ((inserted_id, "submitted"),
   { s1 with statusupdate := s1.statusupdate ++ [su] })

/-- The tail of `act_on_application` (src/main.py lines 164-172): log the
`StatusUpdate` and return `{"id", "status", "current_stage"}`.  When the
pydantic construction fails, the exception propagates (a generic server
error) but the application mutation `s1` already happened and is kept. -/
def logStatusUpdate (s1 : DB) (app_id : Nat) (act : ReviewAction)
    (new_status current_stage : String) : Except String ActionResult × DB :=
  match mkStatusUpdateChecked app_id act.actor_role act.actor_name act.action
      act.comments act.to_department with
  | .error e => (.error e, s1)
  | .ok su =>
      (.ok { id := app_id, status := new_status, current_stage := current_stage },
       { s1 with statusupdate := s1.statusupdate ++ [su] })

/-- The action dispatch of `act_on_application` (src/main.py lines 146-172),
run once the application `doc` has been found: each branch applies its
single `update_one` and then logs the `StatusUpdate`. -/
def act_branch (s : DB) (app_id : Nat) (act : ReviewAction)
    (doc : Application) : Except String ActionResult × DB :=
  if act.action = "forward" then
      let new_status := "forwarded"
      let current_stage := pyOrStr act.to_department doc.current_stage
      let upd := fun (a : Application) =>
        { a with status := new_status, current_stage := current_stage,
                 route_history := a.route_history ++ [current_stage] }
      let s1 := { s with application := update_first s.application app_id upd }
      logStatusUpdate s1 app_id act new_status current_stage
    else if act.action = "approve" then
      let upd := fun (a : Application) => { a with status := "approved" }
      let s1 := { s with application := update_first s.application app_id upd }
      logStatusUpdate s1 app_id act "approved" doc.current_stage
    else if act.action = "reject" then
      let upd := fun (a : Application) => { a with status := "rejected" }
      let s1 := { s with application := update_first s.application app_id upd }
      logStatusUpdate s1 app_id act "rejected" doc.current_stage
    else
      let upd := fun (a : Application) => { a with status := "under_review" }
      let s1 := { s with application := update_first s.application app_id upd }
      logStatusUpdate s1 app_id act "under_review" doc.current_stage

/-- Embeds `act_on_application` (src/main.py lines 137-172).  Returns the pair of
the HTTP outcome (`Except`) and the database after the call: a `NotFound`
error leaves the store untouched, otherwise `act_branch` dispatches on the
action. -/
def act_on_application (s : DB) (app_id : Nat) (act : ReviewAction) :
    Except String ActionResult × DB :=
  match find_application s app_id with
  | none => (.error "Application not found", s)
  | some doc => act_branch s app_id act doc

/-- MongoDB ascending comparison on `created_at`: a missing value (`None`)
sorts before every concrete timestamp. -/
def caLe : Option Nat → Option Nat → Bool
  | none, _ => true
  | some _, none => false
  | some a, some b => a ≤ b

/-- Ordering of `StatusUpdate` documents used by
`.sort("created_at", 1)` (src/main.py line 179). -/
def suLe (a b : StatusUpdate) : Prop := caLe a.created_at b.created_at = true

instance : DecidableRel suLe := fun a b => by unfold suLe; infer_instance

instance : IsTotal StatusUpdate suLe := by
  constructor
  intro a b
  unfold suLe caLe
  rcases a.created_at with _ | x <;> rcases b.created_at with _ | y <;> simp
  omega

instance : IsTrans StatusUpdate suLe := by
  constructor
  intro a b c
  unfold suLe caLe
  rcases a.created_at with _ | x <;> rcases b.created_at with _ | y <;>
    rcases c.created_at with _ | z <;> simp
  omega

/-- Embeds `get_timeline` (src/main.py lines 175-180): all `statusupdate` documents
whose `application_id` matches, sorted ascending by `created_at`. -/
def get_timeline (s : DB) (app_id : Nat) : List StatusUpdate :=
  List.insertionSort suLe
    (s.statusupdate.filter (fun su => su.application_id == app_id))

/-- Values stored in a serialized MongoDB document. -/
inductive Value where
  | str : String → Value
  | bool : Bool → Value
  | id : Nat → Value
  deriving DecidableEq, Repr

/-- A raw MongoDB document: an ordered mapping from field names to values
(Python dicts preserve insertion order). -/
abbrev Doc := List (String × Value)

/-- Serialization of a `Department` into its stored document
(field order follows the schema declaration). -/
def Department.serialize (d : Department) : Doc :=
  [("name", .str d.name), ("code", .str d.code), ("type", .str d.type),
   ("is_active", .bool d.is_active)]

/-- A stored `department` document: MongoDB places `_id` first. -/
def deptDoc (n : Nat) (d : Department) : Doc := ("_id", .id n) :: d.serialize

/-- Python `doc.pop(k)`: remove the key from the dict. -/
def popKey (doc : Doc) (k : String) : Doc := doc.filter (fun p => p.1 ≠ k)

/-- Python `doc[k] = v`: overwrite in place when the key exists, otherwise
append the new key at the end. -/
def setKey (doc : Doc) (k : String) (v : Value) : Doc :=
  if doc.any (fun p => p.1 = k) then
    doc.map (fun p => if p.1 = k then (k, v) else p)
  else doc ++ [(k, v)]

/-- Embeds `to_public` (src/main.py lines 66-70): `doc["id"] = str(doc.pop("_id"))`.
Every stored document carries `"_id"`, so the `none` fallback (where the
source would raise `KeyError`) is unreachable on store output. -/
def to_public (doc : Doc) : Doc :=
  if doc.isEmpty then doc
  else
    match (doc.find? (fun p => p.1 = "_id")).map (fun p => p.2) with
    | some v => setKey (popKey doc "_id") "id" v
    | none => doc

/-- Embeds `create_department` (src/main.py lines 74-77): insert and return the
store-generated id. -/
def create_department (s : DB) (d : Department) : Nat × DB :=
  (s.nextId,
   { s with department := s.department ++ [(s.nextId, d)],
            nextId := s.nextId + 1 })

/-- Embeds `list_departments` (src/main.py lines 80-83): every stored document,
passed through `to_public`. -/
def list_departments (s : DB) : List Doc :=
  s.department.map (fun p => to_public (deptDoc p.1 p.2))

instance {ε α : Type} [DecidableEq ε] [DecidableEq α] :
    DecidableEq (Except ε α) := fun x y =>
  match x, y with
  | .error e, .error f =>
      if h : e = f then .isTrue (by rw [h]) else .isFalse (by simp [h])
  | .error _, .ok _ => .isFalse (by simp)
  | .ok _, .error _ => .isFalse (by simp)
  | .ok a, .ok b =>
      if h : a = b then .isTrue (by rw [h]) else .isFalse (by simp [h])

/-- Concrete payload used by the evaluation witnesses. -/
def exApp : Application :=
  { student_id := "S1", student_name := "Ann", student_email := "ann@example.com",
    department_code := "CSE", title := "Leave", description := "Family function" }

/-- A concrete one-application store: the result of submitting `exApp` into
an empty database. -/
def exDB : DB := (submit_application {} exApp).2

/-- Concrete department used by the round-trip witness. -/
def exDept : Department := { name := "Computer Science", code := "CSE" }

/-- Abbreviation: the database with the first application matching `i`
rewritten by `f` (the effect of one `update_one` on the store). -/
def updApps (s : DB) (i : Nat) (f : Application → Application) : DB :=
  { s with application := update_first s.application i f }

/-- The document update of the `forward` branch (src/main.py line 153):
`$set status/current_stage` and `$push route_history`. -/
def forwardApp (cs : String) (a : Application) : Application :=
  { a with status := "forwarded", current_stage := cs,
           route_history := a.route_history ++ [cs] }

/-- The document update of the `approve`/`reject`/default branches
(src/main.py lines 156, 159, 162): `$set status` only. -/
def setStatus (st : String) (a : Application) : Application :=
  { a with status := st }

/-- Appending one `StatusUpdate` to the `statusupdate` collection. -/
def pushSU (s1 : DB) (su : StatusUpdate) : DB :=
  { s1 with statusupdate := s1.statusupdate ++ [su] }

/-- The `StatusUpdate` logged by `act_on_application` when pydantic accepts
it (src/main.py lines 165-169). -/
def suOf (i : Nat) (act : ReviewAction) : StatusUpdate :=
  { application_id := i, actor_role := act.actor_role,
    actor_name := act.actor_name, action := act.action,
    comments := act.comments, to_department := act.to_department }

/-! ### Helper lemmas -/

theorem find?_update_first (l : List (Nat × Application)) (i : Nat)
    (f : Application → Application) :
    (update_first l i f).find? (fun p => p.1 == i) =
      (l.find? (fun p => p.1 == i)).map (fun p => (p.1, f p.2)) := by
  induction l with
  | nil => simp [update_first]
  | cons p rest ih =>
    by_cases h : p.1 = i
    · simp [update_first, h]
    · simp [update_first, h, ih]

theorem find_application_update_first (s s' : DB) (i : Nat)
    (f : Application → Application)
    (happ : s'.application = update_first s.application i f)
    (doc : Application) (hf : find_application s i = some doc) :
    find_application s' i = some (f doc) := by
  unfold find_application at hf ⊢
  rw [happ, find?_update_first]
  rcases h : s.application.find? (fun p => p.1 == i) with _ | p
  · rw [h] at hf; simp at hf
  · rw [h] at hf
    simp at hf
    subst hf
    simp
    exact ⟨p.1, p.2, h, rfl⟩

theorem mem_update_first_of_ne (l : List (Nat × Application)) (i : Nat)
    (f : Application → Application) (p : Nat × Application)
    (hp : p ∈ l) (hne : p.1 ≠ i) : p ∈ update_first l i f := by
  induction l with
  | nil => simp at hp
  | cons q rest ih =>
    rcases List.mem_cons.mp hp with hq | hp'
    · subst hq
      by_cases h : p.1 = i
      · exact absurd h hne
      · simp [update_first, h]
    · by_cases h : q.1 = i
      · simp [update_first, h]
        right; exact hp'
      · simp [update_first, h]
        right; exact ih hp'

theorem forall₂_self {R : (Nat × Application) → (Nat × Application) → Prop}
    (h : ∀ p, R p p) : ∀ l, List.Forall₂ R l l
  | [] => List.Forall₂.nil
  | p :: rest => List.Forall₂.cons (h p) (forall₂_self h rest)

theorem update_first_forall₂ (R : Application → Application → Prop)
    (f : Application → Application) (hf : ∀ a, R a (f a)) (hrefl : ∀ a, R a a)
    (l : List (Nat × Application)) (i : Nat) :
    List.Forall₂ (fun p q => p.1 = q.1 ∧ R p.2 q.2) l (update_first l i f) := by
  induction l with
  | nil => exact List.Forall₂.nil
  | cons p rest ih =>
    by_cases h : p.1 = i
    · simp only [update_first, if_pos h]
      exact List.Forall₂.cons ⟨rfl, hf _⟩ (forall₂_self (fun q => ⟨rfl, hrefl _⟩) rest)
    · simp only [update_first, if_neg h]
      exact List.Forall₂.cons ⟨rfl, hrefl _⟩ ih

theorem mkStatusUpdateChecked_created_at {i : Nat} {r n a : String}
    {c t : Option String} {su : StatusUpdate}
    (h : mkStatusUpdateChecked i r n a c t = .ok su) : su.created_at = none := by
  unfold mkStatusUpdateChecked at h
  split at h
  · cases h; rfl
  · cases h

theorem logStatusUpdate_application (s1 : DB) (i : Nat) (act : ReviewAction)
    (ns cs : String) :
    (logStatusUpdate s1 i act ns cs).2.application = s1.application := by
  unfold logStatusUpdate
  split <;> rfl

theorem logStatusUpdate_department (s1 : DB) (i : Nat) (act : ReviewAction)
    (ns cs : String) :
    (logStatusUpdate s1 i act ns cs).2.department = s1.department := by
  unfold logStatusUpdate
  split <;> rfl

theorem logStatusUpdate_statusupdate (s1 : DB) (i : Nat) (act : ReviewAction)
    (ns cs : String) :
    (logStatusUpdate s1 i act ns cs).2.statusupdate = s1.statusupdate ∨
    ∃ su, su.created_at = none ∧
      (logStatusUpdate s1 i act ns cs).2.statusupdate = s1.statusupdate ++ [su] := by
  unfold logStatusUpdate
  rcases h : mkStatusUpdateChecked i act.actor_role act.actor_name act.action
      act.comments act.to_department with e | su
  · left; rfl
  · right; exact ⟨su, mkStatusUpdateChecked_created_at h, rfl⟩

theorem act_on_application_none (s : DB) (i : Nat) (act : ReviewAction)
    (hf : find_application s i = none) :
    act_on_application s i act = (.error "Application not found", s) := by
  unfold act_on_application
  rw [hf]

theorem act_on_application_some (s : DB) (i : Nat) (act : ReviewAction)
    (doc : Application) (hf : find_application s i = some doc) :
    act_on_application s i act = act_branch s i act doc := by
  unfold act_on_application
  rw [hf]

theorem act_branch_forward (s : DB) (i : Nat) (act : ReviewAction)
    (doc : Application) (h1 : act.action = "forward") :
    act_branch s i act doc =
      logStatusUpdate
        (updApps s i (forwardApp (pyOrStr act.to_department doc.current_stage)))
        i act "forwarded" (pyOrStr act.to_department doc.current_stage) := by
  unfold act_branch
  rw [if_pos h1]
  rfl

theorem act_branch_approve (s : DB) (i : Nat) (act : ReviewAction)
    (doc : Application) (h2 : act.action = "approve") :
    act_branch s i act doc =
      logStatusUpdate (updApps s i (setStatus "approved"))
        i act "approved" doc.current_stage := by
  unfold act_branch
  rw [if_neg (by rw [h2]; decide), if_pos h2]
  rfl

theorem act_branch_reject (s : DB) (i : Nat) (act : ReviewAction)
    (doc : Application) (h3 : act.action = "reject") :
    act_branch s i act doc =
      logStatusUpdate (updApps s i (setStatus "rejected"))
        i act "rejected" doc.current_stage := by
  unfold act_branch
  rw [if_neg (by rw [h3]; decide), if_neg (by rw [h3]; decide), if_pos h3]
  rfl

theorem act_branch_default (s : DB) (i : Nat) (act : ReviewAction)
    (doc : Application) (h1 : act.action ≠ "forward")
    (h2 : act.action ≠ "approve") (h3 : act.action ≠ "reject") :
    act_branch s i act doc =
      logStatusUpdate (updApps s i (setStatus "under_review"))
        i act "under_review" doc.current_stage := by
  unfold act_branch
  rw [if_neg h1, if_neg h2, if_neg h3]
  rfl

theorem logStatusUpdate_ok (s1 : DB) (i : Nat) (act : ReviewAction)
    (ns cs : String)
    (hv : (validRole act.actor_role && validSUAction act.action) = true) :
    logStatusUpdate s1 i act ns cs =
      (.ok { id := i, status := ns, current_stage := cs },
       pushSU s1 (suOf i act)) := by
  unfold logStatusUpdate mkStatusUpdateChecked
  rw [hv]
  simp [pushSU, suOf]

theorem logStatusUpdate_err (s1 : DB) (i : Nat) (act : ReviewAction)
    (ns cs : String)
    (hv : (validRole act.actor_role && validSUAction act.action) = false) :
    logStatusUpdate s1 i act ns cs = (.error "ValidationError", s1) := by
  unfold logStatusUpdate mkStatusUpdateChecked
  rw [hv]
  simp

/-! ### Claim theorems -/

/-- C4: an `applyAction` call whose id does not reference an existing
application fails with NotFound and leaves the database — applications,
status updates, everything — exactly as it was; in particular no
`StatusUpdate` record is created. -/
theorem applyAction_notFound (s : DB) (i : Nat) (act : ReviewAction)
    (hf : find_application s i = none) :
    act_on_application s i act = (.error "Application not found", s) :=
  act_on_application_none s i act hf

theorem applyAction_notFound_witness :
    act_on_application exDB 5
        { actor_role := "coordinator", actor_name := "Bob", action := "approve" } =
      (.error "Application not found", exDB) :=
  applyAction_notFound exDB 5
    { actor_role := "coordinator", actor_name := "Bob", action := "approve" }
    (by decide)

/-- Payload refuting C2: a pydantic-valid `Application` body that explicitly
sets the workflow fields. -/
def approvedApp : Application :=
  { student_id := "S1", student_name := "Eve", student_email := "eve@example.com",
    department_code := "CSE", title := "Pre-approved", description := "D",
    status := "approved", current_stage := "hod", route_history := ["hod"] }

/-- C2 counterexample: `status`, `current_stage` and `route_history` are
declared (defaulted, not server-forced) fields of the `Application` schema,
and `submit_application` persists the payload as-is — so a valid payload
carrying `status="approved"` is persisted with status `"approved"`, not
`"submitted"`, refuting "regardless of the submitted payload". -/
theorem submit_counterexample :
    Application.valid approvedApp = true ∧
    (submit_application {} approvedApp).2.application = [(0, approvedApp)] ∧
    approvedApp.status ≠ "submitted" ∧
    approvedApp.current_stage ≠ "coordinator" ∧
    approvedApp.route_history ≠ [] := by decide

/-- C2 (amended): for every submission whose payload leaves the workflow
fields at their schema defaults, the persisted `Application` has
`status="submitted"`, `current_stage="coordinator"` and an empty
`route_history`. -/
theorem submit_persists_defaults (s : DB)
    (sid sname semail dept cat ttl descr : String) (att : List String) :
    (submit_application s
        { student_id := sid, student_name := sname, student_email := semail,
          department_code := dept, category := cat, title := ttl,
          description := descr, attachments := att }).2.application =
      s.application ++
        [(s.nextId,
          { student_id := sid, student_name := sname, student_email := semail,
            department_code := dept, category := cat, title := ttl,
            description := descr, attachments := att,
            status := "submitted", current_stage := "coordinator",
            route_history := [] })] := rfl

/-- C6: submitting a valid application whose fresh id is not referenced by
any pre-existing `StatusUpdate` (store-generated ids are fresh) leaves
exactly one `StatusUpdate` referencing the new id, with `action="submit"`,
`actor_role="student"`, `actor_name` the student's name and
`comments="Application submitted"`. -/
theorem submit_creates_one_statusupdate (s : DB) (a : Application)
    (hfresh : ∀ su ∈ s.statusupdate, su.application_id ≠ s.nextId) :
    (submit_application s a).1.1 = s.nextId ∧
    ((submit_application s a).2.statusupdate).filter
        (fun su => su.application_id == s.nextId) =
      [{ application_id := s.nextId, actor_role := "student",
         actor_name := a.student_name, action := "submit",
         comments := some "Application submitted" }] := by
  refine ⟨rfl, ?_⟩
  show (s.statusupdate ++
    [({ application_id := s.nextId, actor_role := "student",
        actor_name := a.student_name, action := "submit",
        comments := some "Application submitted" } : StatusUpdate)]).filter
      (fun su => su.application_id == s.nextId) = _
  rw [List.filter_append]
  rw [List.filter_eq_nil_iff.mpr (fun su hsu => by simp [hfresh su hsu])]
  simp

theorem submit_creates_one_statusupdate_witness :
    (submit_application exDB exApp).1.1 = 1 ∧
    ((submit_application exDB exApp).2.statusupdate).filter
        (fun su => su.application_id == 1) =
      [{ application_id := 1, actor_role := "student",
         actor_name := "Ann", action := "submit",
         comments := some "Application submitted" }] :=
  submit_creates_one_statusupdate exDB exApp (by decide)

/-- C7: `get_timeline` returns exactly the `StatusUpdate` documents whose
`application_id` matches (as a permutation), sorted non-decreasing by
`created_at`; an id with no matching documents (including a nonexistent
application) yields the empty list rather than an error. -/
theorem getTimeline_spec (s : DB) (i : Nat) :
    List.Sorted suLe (get_timeline s i) ∧
    (get_timeline s i).Perm
      (s.statusupdate.filter (fun su => su.application_id == i)) ∧
    (s.statusupdate.filter (fun su => su.application_id == i) = [] →
      get_timeline s i = []) := by
  refine ⟨List.sorted_insertionSort suLe _, List.perm_insertionSort suLe _, ?_⟩
  intro h
  unfold get_timeline
  rw [h]
  rfl

theorem getTimeline_spec_witness : get_timeline exDB 3 = [] :=
  (getTimeline_spec exDB 3).2.2 (by decide)

/-- C10: neither `submit_application` nor `act_on_application` assigns a
creation timestamp: every `StatusUpdate` present after either call was
either already in the store or has `created_at = none` (the schema
default). -/
theorem statusupdates_created_at_none (s : DB) (a : Application)
    (i : Nat) (act : ReviewAction) (su : StatusUpdate) :
    (su ∈ (submit_application s a).2.statusupdate →
      su ∈ s.statusupdate ∨ su.created_at = none) ∧
    (su ∈ (act_on_application s i act).2.statusupdate →
      su ∈ s.statusupdate ∨ su.created_at = none) := by
  constructor
  · intro h
    rcases List.mem_append.mp h with h' | h'
    · exact Or.inl h'
    · simp at h'
      right; rw [h']
  · intro h
    rcases hfind : find_application s i with _ | doc
    · rw [act_on_application_none s i act hfind] at h
      exact Or.inl h
    · rw [act_on_application_some s i act doc hfind] at h
      have key : ∀ (s1 : DB) (ns cs : String),
        su ∈ (logStatusUpdate s1 i act ns cs).2.statusupdate →
        s1.statusupdate = s.statusupdate →
        su ∈ s.statusupdate ∨ su.created_at = none := by
        intro s1 ns cs hmem hs1
        rcases logStatusUpdate_statusupdate s1 i act ns cs with heq | ⟨su', hca, heq⟩
        · rw [heq, hs1] at hmem; exact Or.inl hmem
        · rw [heq, hs1] at hmem
          rcases List.mem_append.mp hmem with h' | h'
          · exact Or.inl h'
          · simp at h'
            right; rw [h', hca]
      unfold act_branch at h
      by_cases h1 : act.action = "forward"
      · rw [if_pos h1] at h
        exact key _ _ _ h rfl
      · rw [if_neg h1] at h
        by_cases h2 : act.action = "approve"
        · rw [if_pos h2] at h
          exact key _ _ _ h rfl
        · rw [if_neg h2] at h
          by_cases h3 : act.action = "reject"
          · rw [if_pos h3] at h
            exact key _ _ _ h rfl
          · rw [if_neg h3] at h
            exact key _ _ _ h rfl

theorem statusupdates_created_at_none_witness :
    ({ application_id := 0, actor_role := "student", actor_name := "Ann",
       action := "submit",
       comments := some "Application submitted" } : StatusUpdate) ∈
        ({} : DB).statusupdate ∨
    ({ application_id := 0, actor_role := "student", actor_name := "Ann",
       action := "submit",
       comments := some "Application submitted" } : StatusUpdate).created_at
      = none :=
  (statusupdates_created_at_none {} exApp 0
      { actor_role := "coordinator", actor_name := "Bob", action := "review" }
      { application_id := 0, actor_role := "student", actor_name := "Ann",
        action := "submit", comments := some "Application submitted" }).1
    (by decide)

/-- C1 (amended): for every `applyAction` call on an existing application
whose action is outside {forward, approve, reject} and is accepted when the
`StatusUpdate` is recorded (the action is one of the remaining literals
review/comment/submit and the actor_role is a valid user role), the
application's status is set to `"under_review"` and the call returns the
new status together with the unchanged `current_stage`. -/
theorem applyAction_otherAction_underReview (s : DB) (i : Nat)
    (act : ReviewAction) (doc : Application)
    (hf : find_application s i = some doc)
    (h1 : act.action ≠ "forward") (h2 : act.action ≠ "approve")
    (h3 : act.action ≠ "reject")
    (hv : (validRole act.actor_role && validSUAction act.action) = true) :
    (act_on_application s i act).1 =
      .ok { id := i, status := "under_review",
            current_stage := doc.current_stage } ∧
    find_application (act_on_application s i act).2 i =
      some { doc with status := "under_review" } := by
  rw [act_on_application_some s i act doc hf,
      act_branch_default s i act doc h1 h2 h3,
      logStatusUpdate_ok _ i act _ _ hv]
  exact ⟨rfl, find_application_update_first s _ i _ rfl doc hf⟩

theorem applyAction_otherAction_underReview_witness :
    (act_on_application exDB 0
        { actor_role := "coordinator", actor_name := "Bob",
          action := "review" }).1 =
      .ok { id := 0, status := "under_review",
            current_stage := exApp.current_stage } ∧
    find_application (act_on_application exDB 0
        { actor_role := "coordinator", actor_name := "Bob",
          action := "review" }).2 0 =
      some { exApp with status := "under_review" } :=
  applyAction_otherAction_underReview exDB 0
    { actor_role := "coordinator", actor_name := "Bob", action := "review" }
    exApp (by decide) (by decide) (by decide) (by decide) (by decide)

/-- C1 counterexample: the action string `"frobnicate"` is outside
{forward, approve, reject}, the application exists, and the status is
indeed set to `"under_review"` — but the call does NOT return the new
status and stage: it fails with the pydantic `ValidationError` raised when
the `StatusUpdate` (whose `action` field is `Literal`-restricted) is
constructed, after the document was already mutated. -/
theorem applyAction_otherAction_counterexample :
    (act_on_application exDB 0
        { actor_role := "coordinator", actor_name := "Bob",
          action := "frobnicate" }).1 = .error "ValidationError" ∧
    (find_application (act_on_application exDB 0
        { actor_role := "coordinator", actor_name := "Bob",
          action := "frobnicate" }).2 0).map (fun a => a.status) =
      some "under_review" := by decide

/-- C3 (amended): forwarding an existing application with a provided
non-empty `to_department = D` sets status `"forwarded"`, `current_stage`
to `D` and appends `D` to `route_history`; when `to_department` is omitted
— or provided as the empty string, which Python `or` treats as absent —
the stage is unchanged and the unchanged stage is appended. -/
theorem applyAction_forward_route (s : DB) (i : Nat) (act : ReviewAction)
    (doc : Application) (hf : find_application s i = some doc)
    (ha : act.action = "forward") :
    (∀ d, act.to_department = some d → d ≠ "" →
      find_application (act_on_application s i act).2 i =
        some { doc with status := "forwarded", current_stage := d,
                        route_history := doc.route_history ++ [d] }) ∧
    ((act.to_department = none ∨ act.to_department = some "") →
      find_application (act_on_application s i act).2 i =
        some { doc with status := "forwarded",
                        route_history := doc.route_history ++
                          [doc.current_stage] }) := by
  have happ : (act_on_application s i act).2.application =
      update_first s.application i
        (forwardApp (pyOrStr act.to_department doc.current_stage)) := by
    rw [act_on_application_some s i act doc hf,
        act_branch_forward s i act doc ha, logStatusUpdate_application]
    rfl
  have hfind := find_application_update_first s (act_on_application s i act).2
    i (forwardApp (pyOrStr act.to_department doc.current_stage)) happ doc hf
  constructor
  · intro d hd hne
    rw [hfind, hd]
    simp [pyOrStr, forwardApp, hne]
  · intro hor
    rcases hor with hd | hd <;> rw [hfind, hd] <;> simp [pyOrStr, forwardApp]

theorem applyAction_forward_route_witness :
    find_application (act_on_application exDB 0
        { actor_role := "coordinator", actor_name := "Bob",
          action := "forward", to_department := some "hod" }).2 0 =
      some { exApp with status := "forwarded", current_stage := "hod",
                        route_history := exApp.route_history ++ ["hod"] } :=
  (applyAction_forward_route exDB 0
      { actor_role := "coordinator", actor_name := "Bob",
        action := "forward", to_department := some "hod" }
      exApp (by decide) (by decide)).1 "hod" rfl (by decide)

/-- C3 counterexample: forwarding with `to_department` provided as the
empty string `""` (a value the unrestricted `ReviewAction` schema accepts)
leaves `current_stage = "coordinator"` — not the provided `D = ""` —
because Python's `action.to_department or current_stage` treats `""` as
falsy. -/
theorem applyAction_forward_empty_counterexample :
    (act_on_application exDB 0
        { actor_role := "coordinator", actor_name := "Bob",
          action := "forward", to_department := some "" }).1 =
      .ok { id := 0, status := "forwarded", current_stage := "coordinator" } ∧
    (find_application (act_on_application exDB 0
        { actor_role := "coordinator", actor_name := "Bob",
          action := "forward", to_department := some "" }).2 0).map
        (fun a => a.current_stage) = some "coordinator" ∧
    ("coordinator" : String) ≠ "" := by decide

/-- C5 (amended): an `approve`/`reject` call on an existing application
whose `actor_role` is a valid role literal updates only the `status` field
of the acted document (everything else, `current_stage` and
`route_history` included, is unchanged), leaves all other documents and
collections untouched, and appends exactly one `StatusUpdate` carrying the
call's fields. -/
theorem applyAction_approveReject_frame (s : DB) (i : Nat)
    (act : ReviewAction) (doc : Application)
    (hf : find_application s i = some doc)
    (ha : act.action = "approve" ∨ act.action = "reject")
    (hrole : validRole act.actor_role = true) :
    (act_on_application s i act).1 =
      .ok { id := i,
            status := if act.action = "approve" then "approved" else "rejected",
            current_stage := doc.current_stage } ∧
    find_application (act_on_application s i act).2 i =
      some { doc with
               status := if act.action = "approve" then "approved"
                         else "rejected" } ∧
    (∀ p ∈ s.application, p.1 ≠ i →
      p ∈ (act_on_application s i act).2.application) ∧
    (act_on_application s i act).2.statusupdate =
      s.statusupdate ++ [suOf i act] ∧
    (act_on_application s i act).2.department = s.department := by
  rcases ha with ha | ha
  · have hv : (validRole act.actor_role && validSUAction act.action) = true := by
      rw [hrole, ha]; decide
    rw [act_on_application_some s i act doc hf,
        act_branch_approve s i act doc ha, logStatusUpdate_ok _ i act _ _ hv,
        if_pos ha]
    refine ⟨rfl, find_application_update_first s _ i _ rfl doc hf,
      ?_, rfl, rfl⟩
    intro p hp hne
    exact mem_update_first_of_ne s.application i (setStatus "approved") p hp hne
  · have hne' : act.action ≠ "approve" := by rw [ha]; decide
    have hv : (validRole act.actor_role && validSUAction act.action) = true := by
      rw [hrole, ha]; decide
    rw [act_on_application_some s i act doc hf,
        act_branch_reject s i act doc ha, logStatusUpdate_ok _ i act _ _ hv,
        if_neg hne']
    refine ⟨rfl, find_application_update_first s _ i _ rfl doc hf,
      ?_, rfl, rfl⟩
    intro p hp hne
    exact mem_update_first_of_ne s.application i (setStatus "rejected") p hp hne

theorem applyAction_approveReject_frame_witness :
    (act_on_application exDB 0
        { actor_role := "hod", actor_name := "Cara", action := "approve" }).1 =
      .ok { id := 0,
            status := if ("approve" : String) = "approve" then "approved"
                      else "rejected",
            current_stage := exApp.current_stage } ∧
    find_application (act_on_application exDB 0
        { actor_role := "hod", actor_name := "Cara",
          action := "approve" }).2 0 =
      some { exApp with
               status := if ("approve" : String) = "approve" then "approved"
                         else "rejected" } ∧
    (∀ p ∈ exDB.application, p.1 ≠ 0 →
      p ∈ (act_on_application exDB 0
        { actor_role := "hod", actor_name := "Cara",
          action := "approve" }).2.application) ∧
    (act_on_application exDB 0
        { actor_role := "hod", actor_name := "Cara",
          action := "approve" }).2.statusupdate =
      exDB.statusupdate ++
        [suOf 0 { actor_role := "hod", actor_name := "Cara",
                  action := "approve" }] ∧
    (act_on_application exDB 0
        { actor_role := "hod", actor_name := "Cara",
          action := "approve" }).2.department = exDB.department :=
  applyAction_approveReject_frame exDB 0
    { actor_role := "hod", actor_name := "Cara", action := "approve" }
    exApp (by decide) (Or.inl rfl) (by decide)

/-- C5 counterexample: an `approve` call whose `actor_role` is `"teacher"`
(accepted by the unrestricted `ReviewAction` schema but outside the
`StatusUpdate` role literals) updates the status to `"approved"` yet adds
NO `StatusUpdate` record — the pydantic construction of the audit record
fails after the document mutation. -/
theorem applyAction_approve_counterexample :
    (act_on_application exDB 0
        { actor_role := "teacher", actor_name := "Eve",
          action := "approve" }).2.statusupdate = exDB.statusupdate ∧
    (find_application (act_on_application exDB 0
        { actor_role := "teacher", actor_name := "Eve",
          action := "approve" }).2 0).map (fun a => a.status) =
      some "approved" := by decide

theorem applyAction_ok_shape (s : DB) (i : Nat) (act : ReviewAction)
    (doc : Application) (hfind : find_application s i = some doc)
    (r : ActionResult) (s' : DB)
    (h : act_on_application s i act = (.ok r, s')) :
    ∃ f : Application → Application,
      s'.application = update_first s.application i f ∧
      (∀ a, a.route_history <+: (f a).route_history) ∧
      (f doc).status = r.status ∧ (f doc).current_stage = r.current_stage ∧
      r.id = i := by
  rw [act_on_application_some s i act doc hfind] at h
  by_cases hv : (validRole act.actor_role && validSUAction act.action) = true
  · by_cases h1 : act.action = "forward"
    · rw [act_branch_forward s i act doc h1,
          logStatusUpdate_ok _ i act _ _ hv, Prod.mk.injEq] at h
      obtain ⟨hr, hs⟩ := h
      simp only [Except.ok.injEq] at hr
      subst hs; subst hr
      exact ⟨forwardApp (pyOrStr act.to_department doc.current_stage), rfl,
        fun a => ⟨[pyOrStr act.to_department doc.current_stage], rfl⟩,
        rfl, rfl, rfl⟩
    · by_cases h2 : act.action = "approve"
      · rw [act_branch_approve s i act doc h2,
            logStatusUpdate_ok _ i act _ _ hv, Prod.mk.injEq] at h
        obtain ⟨hr, hs⟩ := h
        simp only [Except.ok.injEq] at hr
        subst hs; subst hr
        exact ⟨setStatus "approved", rfl, fun a => ⟨[], by simp [setStatus]⟩,
          rfl, rfl, rfl⟩
      · by_cases h3 : act.action = "reject"
        · rw [act_branch_reject s i act doc h3,
              logStatusUpdate_ok _ i act _ _ hv, Prod.mk.injEq] at h
          obtain ⟨hr, hs⟩ := h
          simp only [Except.ok.injEq] at hr
          subst hs; subst hr
          exact ⟨setStatus "rejected", rfl, fun a => ⟨[], by simp [setStatus]⟩,
            rfl, rfl, rfl⟩
        · rw [act_branch_default s i act doc h1 h2 h3,
              logStatusUpdate_ok _ i act _ _ hv, Prod.mk.injEq] at h
          obtain ⟨hr, hs⟩ := h
          simp only [Except.ok.injEq] at hr
          subst hs; subst hr
          exact ⟨setStatus "under_review", rfl, fun a => ⟨[], by simp [setStatus]⟩,
            rfl, rfl, rfl⟩
  · have hvf : (validRole act.actor_role && validSUAction act.action) = false := by
      revert hv
      cases validRole act.actor_role && validSUAction act.action <;> simp
    by_cases h1 : act.action = "forward"
    · rw [act_branch_forward s i act doc h1,
          logStatusUpdate_err _ i act _ _ hvf] at h
      simp at h
    · by_cases h2 : act.action = "approve"
      · rw [act_branch_approve s i act doc h2,
            logStatusUpdate_err _ i act _ _ hvf] at h
        simp at h
      · by_cases h3 : act.action = "reject"
        · rw [act_branch_reject s i act doc h3,
              logStatusUpdate_err _ i act _ _ hvf] at h
          simp at h
        · rw [act_branch_default s i act doc h1 h2 h3,
              logStatusUpdate_err _ i act _ _ hvf] at h
          simp at h

/-- C8: for every successful `applyAction` call, each stored application's
prior `route_history` is a prefix of its resulting `route_history` (it is
never shortened or reordered), and the single document update that changed
the status left the stored (status, current_stage) pair exactly equal to
the pair the call returns — the two fields are established together by the
one `update_one` of the branch. -/
theorem applyAction_history_prefix_atomic (s : DB) (i : Nat)
    (act : ReviewAction) (r : ActionResult) (s' : DB)
    (h : act_on_application s i act = (.ok r, s')) :
    List.Forall₂ (fun p q => p.1 = q.1 ∧ p.2.route_history <+: q.2.route_history)
      s.application s'.application ∧
    r.id = i ∧
    (find_application s' i).map (fun a => (a.status, a.current_stage)) =
      some (r.status, r.current_stage) := by
  rcases hfind : find_application s i with _ | doc
  · rw [act_on_application_none s i act hfind] at h
    simp at h
  · obtain ⟨f, happ, hgrow, hstat, hstage, hid⟩ :=
      applyAction_ok_shape s i act doc hfind r s' h
    refine ⟨?_, hid, ?_⟩
    · rw [happ]
      exact update_first_forall₂ (fun a b => a.route_history <+: b.route_history)
        f hgrow (fun a => ⟨[], by simp⟩) s.application i
    · rw [find_application_update_first s s' i f happ doc hfind]
      simp [hstat, hstage]

theorem applyAction_history_prefix_atomic_witness :
    List.Forall₂ (fun p q => p.1 = q.1 ∧ p.2.route_history <+: q.2.route_history)
      exDB.application
      (act_on_application exDB 0
        { actor_role := "hod", actor_name := "Cara",
          action := "forward", to_department := some "registrar" }).2.application ∧
    ({ id := 0, status := "forwarded",
       current_stage := "registrar" } : ActionResult).id = 0 ∧
    (find_application (act_on_application exDB 0
        { actor_role := "hod", actor_name := "Cara",
          action := "forward", to_department := some "registrar" }).2 0).map
        (fun a => (a.status, a.current_stage)) =
      some (("forwarded" : String), ("registrar" : String)) :=
  applyAction_history_prefix_atomic exDB 0
    { actor_role := "hod", actor_name := "Cara",
      action := "forward", to_department := some "registrar" }
    { id := 0, status := "forwarded", current_stage := "registrar" }
    (act_on_application exDB 0
      { actor_role := "hod", actor_name := "Cara",
        action := "forward", to_department := some "registrar" }).2
    (by decide)

theorem to_public_deptDoc (n : Nat) (d : Department) :
    to_public (deptDoc n d) = d.serialize ++ [("id", Value.id n)] := rfl

/-- C9: after `create_department` returns id `I`, `list_departments`
includes a document whose fields equal the serialized input with the
public `"id"` field equal to `I` appended, and no listed document exposes
the storage-internal `"_id"` key (it is renamed to `"id"` and removed). -/
theorem createDepartment_roundtrip (s : DB) (d : Department) :
    (d.serialize ++ [("id", Value.id (create_department s d).1)]) ∈
      list_departments (create_department s d).2 ∧
    ∀ doc ∈ list_departments (create_department s d).2,
      ∀ p ∈ doc, p.1 ≠ "_id" := by
  constructor
  · show _ ∈ (s.department ++ [(s.nextId, d)]).map
      (fun p => to_public (deptDoc p.1 p.2))
    rw [List.map_append]
    apply List.mem_append_right
    simp [to_public_deptDoc]
    rfl
  · intro doc hdoc p hp
    simp only [list_departments, List.mem_map] at hdoc
    obtain ⟨q, hq, rfl⟩ := hdoc
    rw [to_public_deptDoc] at hp
    simp [Department.serialize] at hp
    rcases hp with rfl | rfl | rfl | rfl | rfl <;> simp

theorem createDepartment_roundtrip_witness :
    (Department.serialize exDept ++ [("id", Value.id 1)]) ∈
      list_departments (create_department exDB exDept).2 :=
  (createDepartment_roundtrip exDB exDept).1

end CDAMS
